import Mathlib

/-!
Verification development for the HawkEye real-time visual-monitoring pipeline.

The definitions below are a shallow embedding of the Python sources:
`src/main.py` (the frame-scheduling and decision engine with its websocket
handler, face matching, speech handling, trigger scanning and forwarding) and
`src/vlm-websocket/server.py` (the simpler server variant).  External
capabilities (the Ollama VLM endpoint, the speech/query HTTP service, the
`face_recognition` library's numeric routines) are modelled by explicit
outcome/oracle parameters; everything the repository's own code computes from
those outcomes is translated directly from the source.
-/

namespace HawkEye

/-! ## Configuration constants (src/main.py lines 17-31, 33-47, 291) -/

/-- Trigger vocabulary `TARGET_OBJECTS` (src/main.py line 26). -/
def TARGET_OBJECTS : List String := ["apple", "cell phone", "weapon", "bottle", "falling"]

/-- The idle sentinel prompt string compared against in src/main.py
lines 292, 348-349 and 364. -/
def SENTINEL : String := "Analyze this frame according to the system instructions."

/-- The default ambient description prompt (src/main.py line 291). -/
def AMBIENT_PROMPT : String := "Describe what you see in this frame. What\x27s happening?"

/-- `FRAME_PROCESS_INTERVAL = 2.0` (src/main.py line 23), in seconds. -/
def FRAME_PROCESS_INTERVAL : ℚ := 2

/-! ## Strings: lowering, trimming, substring search

Python's `str.lower()`, `str.strip()` and the `in` substring operator, used by
the trigger scanning loop (src/main.py lines 309-310) and the speech handler
(src/main.py lines 128-131). -/

/-- Python `str.lower()` restricted to the ASCII case mapping. -/
def lowerStr (s : String) : String := ⟨s.data.map Char.toLower⟩

/-- ASCII whitespace test for `str.strip()`. -/
def isWs (c : Char) : Bool := c == ' ' || c == '\t' || c == '\n' || c == '\r'

/-- Python `str.strip()`: drop whitespace from both ends. -/
def trimChars (l : List Char) : List Char :=
  ((l.dropWhile isWs).reverse.dropWhile isWs).reverse

/-- Python `str.strip()` on strings. -/
def trimStr (s : String) : String := ⟨trimChars s.data⟩

/-- Python's `needle in hay` substring containment, on character lists:
true iff `needle` is a contiguous sublist of `hay`. -/
def isSubChars (needle : List Char) : List Char → Bool
  | [] => needle.isEmpty
  | c :: rest => needle.isPrefixOf (c :: rest) || isSubChars needle rest

/-- Python's `needle in hay` on strings. -/
def occursIn (needle hay : String) : Bool := isSubChars needle.data hay.data

/-! ## Inbound messages

The JSON fields read by `process_single_frame` and the websocket handler
(src/main.py lines 244-246, 348-349, 364).  `prompt = none` models an absent
key; Python truthiness of the prompt is `promptTruthy`. -/

/-- Fields of an inbound websocket message used by the decision engine. -/
structure Msg where
  prompt : Option String := none
  recognize_faces : Bool := false
  is_speech : Bool := false
deriving DecidableEq, Repr

/-- Python truthiness of `message.get("prompt")`: present and non-empty. -/
def promptTruthy : Option String → Bool
  | none => false
  | some s => !(s == "")

/-- The `is_idle` test of the scanner loop (src/main.py lines 348-349):
`not latest_message.get("prompt") or latest_message.get("prompt") == SENTINEL`. -/
def isIdleMsg (m : Msg) : Bool :=
  !(promptTruthy m.prompt) || (m.prompt == some SENTINEL)

/-- The immediate-processing condition of the websocket reader
(src/main.py line 364): `msg.get("recognize_faces") or (msg.get("prompt")
and msg["prompt"] != SENTINEL)`. -/
def immediateMsg (m : Msg) : Bool :=
  m.recognize_faces || (promptTruthy m.prompt && !(m.prompt == some SENTINEL))

/-! ## Face matching (src/main.py lines 89-117)

`recognize_faces_in_frame` decodes the frame, detects faces and matches each
against the gallery.  The `face_recognition` library calls are modelled by
their documented semantics: `face_distance` yields one distance per gallery
entry (an oracle input here), `compare_faces(known, enc, tolerance)` is
`distance <= tolerance` entrywise, and `np.argmin` selects the first index of
the minimum. -/

/-- Pixel bounding box of a detected face (top/right/bottom/left). -/
structure FaceLoc where
  top : Int
  right : Int
  bottom : Int
  left : Int
deriving DecidableEq, Repr

/-- One entry of the `faces_found` list (src/main.py lines 109-113). -/
structure Face where
  name : String
  location : FaceLoc
  confidence : ℚ
deriving DecidableEq, Repr

/-- The dict returned by `recognize_faces_in_frame` (src/main.py
lines 114, 117). -/
structure FaceResults where
  count : ℕ
  faces : List Face
  error : Option String := none
deriving DecidableEq, Repr

/-- `np.argmin` on a list of distances: the first index attaining the
minimum (0 on the empty list, where the code never consults it). -/
def argminIdx : List ℚ → ℕ
  | [] => 0
  | [_] => 0
  | x :: y :: ys =>
    if x ≤ (y :: ys).getD (argminIdx (y :: ys)) 0 then 0 else argminIdx (y :: ys) + 1

/-- The per-face matching policy of src/main.py lines 98-113: start from
`name = "Unknown"`, `confidence = 0.0`; if the gallery is non-empty, take the
`argmin` of the distances and, when `compare_faces`' entry there is true
(distance at most the 0.6 tolerance), assign the gallery name and confidence
`1 - distance`.  `names` are the gallery names and `dists` the distances of
this face encoding to each gallery entry. -/
def recognizeOneFace (names : List String) (dists : List ℚ) (loc : FaceLoc) : Face :=
  if names.isEmpty then
    { name := "Unknown", location := loc, confidence := 0 }
  else if dists.getD (argminIdx dists) 0 ≤ 0.6 then
    { name := names.getD (argminIdx dists) "Unknown", location := loc,
      confidence := 1 - dists.getD (argminIdx dists) 0 }
  else
    { name := "Unknown", location := loc, confidence := 0 }

/-- Outcome of decoding the frame and running the detection stage: either a
list of detected faces (location plus distance vector against the gallery), or
an exception caught by the handler of src/main.py lines 115-117. -/
inductive DecodedFrame where
  | ok (detections : List (FaceLoc × List ℚ))
  | failure (e : String)
deriving DecidableEq, Repr

/-- `recognize_faces_in_frame` (src/main.py lines 89-117): on decode success,
match every detected face and return the count and list; on any exception,
return count 0, empty list and the error string. -/
def recognize_faces_in_frame (names : List String) : DecodedFrame → FaceResults
  | .ok dets =>
    { count := (dets.map fun d => recognizeOneFace names d.2 d.1).length,
      faces := dets.map fun d => recognizeOneFace names d.2 d.1 }
  | .failure e => { count := 0, faces := [], error := some e }

/-! ## The VLM call wrappers (src/main.py lines 220-241 and
src/vlm-websocket/server.py lines 45-66)

The HTTP interaction is modelled by its outcome.  `ok r` is a 2xx reply whose
JSON `response` field is `r` (absent when `none`); `timeout` is
`httpx.TimeoutException`; `requestErr` is any other `httpx.RequestError`;
`otherErr` covers every remaining `Exception`, in particular the
`httpx.HTTPStatusError` raised by `raise_for_status()` on a non-2xx status
(it is not a `RequestError`, so it falls to the generic handler). -/

/-- Outcome of one POST to the Ollama endpoint. -/
inductive OllamaOutcome where
  | ok (response : Option String)
  | timeout (e : String)
  | requestErr (e : String)
  | otherErr (e : String)
deriving DecidableEq, Repr

/-- `query_ollama` of src/main.py lines 220-241: each failure class is caught
and mapped to a hard-coded fallback string; nothing propagates. -/
def query_ollama_main : OllamaOutcome → String
  | .ok (some t) => t
  | .ok none => "No response from model."
  | .timeout _ => "I\x27m having trouble processing the image right now (timeout)."
  | .requestErr _ => "I\x27m having trouble connecting to the vision model."
  | .otherErr _ => "An unexpected error occurred while analyzing the image."

/-- `query_ollama` of src/vlm-websocket/server.py lines 45-66: no timeout is
configured; `httpx.RequestError` (which subsumes timeouts) maps to a string
embedding the error text, and any other `Exception` likewise; nothing
propagates. -/
def query_ollama_server : OllamaOutcome → String
  | .ok (some t) => t
  | .ok none => "No response from model."
  | .timeout e => "Error communicating with Ollama: " ++ e
  | .requestErr e => "Error communicating with Ollama: " ++ e
  | .otherErr e => "Error: " ++ e

/-- True on every non-2xx/exception outcome. -/
def isFailureOutcome : OllamaOutcome → Bool
  | .ok _ => false
  | _ => true

/-! ## One iteration of each websocket receive loop (claim C3)

`main.py` lines 356-371: `msg = json.loads(data)` runs with no
`json.JSONDecodeError` handler — the only handler on the loop is
`except WebSocketDisconnect` — so a malformed payload raises out of the
loop, ends the endpoint coroutine and closes the connection without any
reply (and without cancelling the scanner task).
`server.py` lines 72-102: `json.loads` is wrapped in
`except json.JSONDecodeError`, which sends `{"error": "Invalid JSON format"}`
and continues the loop. -/

/-- A websocket text payload: either undecodable JSON or a parsed message
(with the raw `image` field kept optional). -/
inductive Inbound where
  | malformed (raw : String)
  | parsed (image : Option String) (m : Msg)
deriving DecidableEq, Repr

/-- Reply sent back on the websocket during one loop iteration. -/
inductive Reply where
  | errorReply (text : String)
  | resultReply (text : String)
deriving DecidableEq, Repr

/-- Fate of the receive loop after one inbound payload. -/
inductive LoopOutcome where
  | continueOpen (reply : Option Reply)
  | raisedClosed (exn : String)
deriving DecidableEq, Repr

/-- One iteration of the src/main.py websocket loop (lines 357-367), with the
frame-processing work elided: valid JSON keeps the loop running, while
malformed JSON raises `json.JSONDecodeError`, which no handler in the
function catches, so the coroutine exits and the connection closes with no
error reply. -/
def main_receive_step : Inbound → LoopOutcome
  | .malformed _ => .raisedClosed "json.JSONDecodeError"
  | .parsed _ _ => .continueOpen none

/-- One iteration of the src/vlm-websocket/server.py websocket loop
(lines 77-102), with `vlmText` the (stripped) analysis text used on the
success path: malformed JSON is answered with a structured error object and
the loop continues; a message without image data is likewise answered with an
error object; otherwise the analysis is sent back. -/
def server_receive_step (vlmText : String) : Inbound → LoopOutcome
  | .malformed _ => .continueOpen (some (.errorReply "Invalid JSON format"))
  | .parsed none _ => .continueOpen (some (.errorReply "No image data received"))
  | .parsed (some _) _ => .continueOpen (some (.resultReply vlmText))

/-! ## Speech handling (src/main.py lines 120-195)

`handle_speech_prompt(prompt_text, image_b64)`: if the lowered, stripped
prompt contains `"who is this"`, run facial recognition and synthesize a
sentence from the detections; otherwise issue a GET to the speech API and
relay (or degrade to a fixed fallback on `httpx.RequestError`, or to a second
fixed fallback on any other exception). -/

/-- Outcome of the GET to the speech/query HTTP service. -/
inductive SpeechOutcome where
  | ok (text : String)
  | requestError (e : String)
  | otherError (e : String)
deriving DecidableEq, Repr

/-- The dict returned by `handle_speech_prompt`: its `type` tag and the data
fields consulted by `process_single_frame`. -/
structure SpeechResult where
  rtype : String
  face_results : Option FaceResults := none
  response_text : Option String := none
  api_response : Option String := none
  error : Option String := none
deriving DecidableEq, Repr

/-- Names of detected faces that are not the `"Unknown"` sentinel
(src/main.py lines 144-145). -/
def recognizedNames (fr : FaceResults) : List String :=
  (fr.faces.map Face.name).filter fun n => n != "Unknown"

/-- The response sentence synthesized from face results
(src/main.py lines 143-152). -/
def speechFaceText (fr : FaceResults) : String :=
  if fr.count > 0 then
    if (recognizedNames fr).isEmpty then
      "I can see " ++ toString fr.count ++ " person(s), but I don\x27t recognize them."
    else
      "I can see " ++ String.intercalate ", " (recognizedNames fr) ++ "."
  else
    "I don\x27t see any faces in the current frame."

/-- External-effect oracle for one `process_single_frame` run: truthiness of
the image payload handed in, the face gallery names, the decoded detection
stage for this frame, the VLM text as a function of the final prompt, and the
speech-service outcome. -/
structure Env where
  framePresent : Bool := true
  galleryNames : List String := []
  decoded : DecodedFrame := .ok []
  vlm : String → String := fun _ => ""
  speech : SpeechOutcome := .ok ""

/-- `handle_speech_prompt` (src/main.py lines 120-195). -/
def handle_speech_prompt (env : Env) (prompt_text : String) : SpeechResult :=
  if occursIn "who is this" (trimStr (lowerStr prompt_text)) then
    if !env.framePresent then
      { rtype := "facial_recognition",
        error := some "No image provided for facial recognition" }
    else
      { rtype := "facial_recognition",
        face_results := some (recognize_faces_in_frame env.galleryNames env.decoded),
        response_text :=
          some (speechFaceText (recognize_faces_in_frame env.galleryNames env.decoded)) }
  else
    match env.speech with
    | .ok t =>
      { rtype := "speech_api", api_response := some (trimStr t) }
    | .requestError e =>
      { rtype := "speech_api",
        api_response := some "Speech API is currently unavailable.",
        error := some e }
    | .otherError e =>
      { rtype := "speech_api",
        api_response := some "Unable to process speech request.",
        error := some e }

/-! ## The frame decision engine `process_single_frame`
(src/main.py lines 243-325) -/

/-- The JSON object sent back to the client at the end of a
`process_single_frame` run (src/main.py lines 255-261, 272-278, 319-323). -/
structure Sent where
  response : String
  faces : Option FaceResults := none
  triggers : List String := []
  speech_handled : Bool := false
  should_speak : Bool := false
deriving DecidableEq, Repr

/-- Observable actions of one `process_single_frame` run: the prompt of the
VLM call when one was made, whether `recognize_faces_in_frame` ran, the
trigger words dispatched to `forward_frame` (in order, one detached task
each, src/main.py lines 312-315), and the reply sent. -/
structure Outcome where
  vlmPrompt : Option String
  faceIdRan : Bool
  forwards : List String
  sent : Sent
deriving DecidableEq, Repr

/-- Step 1 of the non-speech path (src/main.py lines 285-288): face results
are computed exactly when `recognize_faces` is set. -/
def faceResultsOf (env : Env) (m : Msg) : Option FaceResults :=
  if m.recognize_faces then
    some (recognize_faces_in_frame env.galleryNames env.decoded)
  else none

/-- Step 3 of the non-speech path (src/main.py lines 296-300): when face
results exist, have positive count and contain recognized names, append the
detected-names note to the prompt. -/
def withFaceNote (base : String) (fro : Option FaceResults) : String :=
  match fro with
  | none => base
  | some fr =>
    if fr.count > 0 then
      if (recognizedNames fr).isEmpty then base
      else base ++ "\n\nNote: I\x27ve detected: " ++ String.intercalate ", " (recognizedNames fr) ++ "."
    else base

/-- Step 5 of the non-speech path (src/main.py lines 309-310): the target
words whose lowering occurs in the lowered analysis text, in target-list
order. -/
def triggersOf (analysis : String) : List String :=
  TARGET_OBJECTS.filter fun obj => occursIn (lowerStr obj) (lowerStr analysis)

/-- Step 2 of the non-speech path (src/main.py lines 290-294): the explicit
user prompt when present and different from the sentinel, else the ambient
prompt. -/
def basePromptOf (m : Msg) : String :=
  if promptTruthy m.prompt && !(m.prompt == some SENTINEL) then m.prompt.getD ""
  else AMBIENT_PROMPT

/-- The `final_prompt` handed to `query_ollama` on the non-speech path
(src/main.py lines 290-300). -/
def finalPromptOf (env : Env) (m : Msg) : String :=
  withFaceNote (basePromptOf m) (faceResultsOf env m)

/-- The `analysis_clean` text on the non-speech path
(src/main.py lines 304-305). -/
def analysisOf (env : Env) (m : Msg) : String :=
  trimStr (env.vlm (finalPromptOf env m))

/-- `process_single_frame` (src/main.py lines 243-325).  The speech guard
(line 249) tests `is_speech and user_prompt`; the speech branches return
before the VLM section, branching on the `type` tag of the speech result
(lines 252, 266).  The non-speech path runs face ID when requested, builds
the final prompt, calls the VLM once, scans for triggers, dispatches one
forward per trigger and sends the reply. -/
def processSingleFrame (env : Env) (m : Msg) : Outcome :=
  if m.is_speech && promptTruthy m.prompt then
    if (handle_speech_prompt env (m.prompt.getD "")).rtype = "facial_recognition" then
      { vlmPrompt := none,
        faceIdRan := (handle_speech_prompt env (m.prompt.getD "")).face_results.isSome,
        forwards := [],
        sent := { response := (handle_speech_prompt env (m.prompt.getD "")).response_text.getD "",
                  faces := (handle_speech_prompt env (m.prompt.getD "")).face_results,
                  triggers := [], speech_handled := true, should_speak := true } }
    else
      { vlmPrompt := none, faceIdRan := false, forwards := [],
        sent := { response := (handle_speech_prompt env (m.prompt.getD "")).api_response.getD "No response",
                  faces := none,
                  triggers := [], speech_handled := true, should_speak := true } }
  else
    { vlmPrompt := some (finalPromptOf env m), faceIdRan := m.recognize_faces,
      forwards := triggersOf (analysisOf env m),
      sent := { response := analysisOf env m, faces := faceResultsOf env m,
                triggers := triggersOf (analysisOf env m) } }

/-! ## The per-connection scheduler as a transition system
(src/main.py lines 331-371)

`websocket_endpoint` runs two cooperating asyncio tasks over shared state
`last_process_time`, `latest_frame`, `latest_message` and `processing_lock`:
the reader loop and `scanner_loop`.  Control only changes hands at `await`
points, so every run of straight-line code between awaits is one atomic
transition.  In particular the scanner's `if not processing_lock.locked():`
check followed by `async with processing_lock:` contains no suspension point
when the lock is free (`asyncio.Lock.acquire` returns synchronously then),
so guard evaluation and acquisition form a single transition; likewise the
reader's two assignments to `latest_frame` and `latest_message` (lines
361-362) are adjacent with no await between them.

The in-flight inference (`process_single_frame` plus the trailing
`last_process_time = time.time()`) is abstracted to a `running` program
location entered under the lock and exited by a completion transition that
records the completion time; wall-clock time advances by separate steps. -/

/-- Program location of the scanner task. -/
inductive TimerPc where
  | sleeping
  | running
deriving DecidableEq, Repr

/-- Program location of the reader task: reading, blocked on the lock for an
immediate inference of message `m` over frame `f`, or running that
inference. -/
inductive ReaderPc where
  | waiting
  | wantLock (m : Msg) (f : String)
  | running
deriving DecidableEq, Repr

/-- Shared per-connection state of src/main.py lines 336-339, plus the two
task locations, wall-clock time and a flag recording whether the scanner has
crashed on a null `latest_message` dereference (line 348). -/
structure SchedState where
  now : ℚ
  lastProcessTime : ℚ
  latestFrame : Option String
  latestMsg : Option Msg
  lockHeld : Bool
  timerPc : TimerPc
  readerPc : ReaderPc
  crashed : Bool
deriving DecidableEq, Repr

/-- State right after `websocket.accept()`: `last_process_time = 0`, no frame,
no message, lock free (src/main.py lines 336-339). -/
def initState : SchedState :=
  { now := 0, lastProcessTime := 0, latestFrame := none, latestMsg := none,
    lockHeld := false, timerPc := .sleeping, readerPc := .waiting, crashed := false }

/-- Python truthiness of `latest_frame` (line 345): present and non-empty. -/
def frameTruthy : Option String → Bool
  | none => false
  | some s => !(s == "")

/-- One atomic transition of the two-task system. -/
inductive Step : SchedState → SchedState → Prop where
  /-- Wall-clock time advances (any task sleeping or awaiting I/O). -/
  | timePass (s : SchedState) (d : ℚ) (hd : 0 ≤ d) :
      Step s { s with now := s.now + d }
  /-- Reader receives a frame-bearing message (lines 360-367): both slots are
  overwritten together; if the immediate condition of line 364 holds, the
  reader proceeds to wait on the processing lock, else it loops to read. -/
  | recv (s : SchedState) (m : Msg) (f : String)
      (hr : s.readerPc = .waiting) (hc : s.crashed = false) :
      Step s { s with latestFrame := some f, latestMsg := some m,
                      readerPc := if immediateMsg m then .wantLock m f else .waiting }
  /-- Reader acquires the free lock and starts its immediate inference
  (lines 365-366). -/
  | readerAcquire (s : SchedState) (m : Msg) (f : String)
      (hr : s.readerPc = .wantLock m f) (hl : s.lockHeld = false)
      (hc : s.crashed = false) :
      Step s { s with lockHeld := true, readerPc := .running }
  /-- Reader's inference completes: `last_process_time = time.time()` then the
  lock is released (lines 366-367). -/
  | readerComplete (s : SchedState) (hr : s.readerPc = .running)
      (hc : s.crashed = false) :
      Step s { s with lockHeld := false, lastProcessTime := s.now,
                      readerPc := .waiting }
  /-- Scanner tick that starts an inference (lines 345-352): frame truthy,
  processing interval elapsed since the last completed inference, lock free
  (`locked()` was false, so acquisition is immediate), stored message present
  and idle. -/
  | timerStart (s : SchedState) (m : Msg)
      (ht : s.timerPc = .sleeping)
      (hf : frameTruthy s.latestFrame = true)
      (he : FRAME_PROCESS_INTERVAL ≤ s.now - s.lastProcessTime)
      (hl : s.lockHeld = false)
      (hm : s.latestMsg = some m)
      (hi : isIdleMsg m = true)
      (hc : s.crashed = false) :
      Step s { s with lockHeld := true, timerPc := .running }
  /-- Scanner tick reaching line 348 with `latest_message` still `None`:
  `latest_message.get("prompt")` would raise `AttributeError`.  This
  transition is the hazard claim C10 rules out. -/
  | timerCrash (s : SchedState)
      (ht : s.timerPc = .sleeping)
      (hf : frameTruthy s.latestFrame = true)
      (he : FRAME_PROCESS_INTERVAL ≤ s.now - s.lastProcessTime)
      (hl : s.lockHeld = false)
      (hm : s.latestMsg = none)
      (hc : s.crashed = false) :
      Step s { s with crashed := true }
  /-- Scanner's inference completes: `last_process_time = time.time()` then
  the lock is released (lines 351-352). -/
  | timerComplete (s : SchedState) (ht : s.timerPc = .running)
      (hc : s.crashed = false) :
      Step s { s with lockHeld := false, lastProcessTime := s.now,
                      timerPc := .sleeping }

/-- States reachable from the freshly accepted connection. -/
inductive Reachable : SchedState → Prop where
  | init : Reachable initState
  | step {s s' : SchedState} : Reachable s → Step s s' → Reachable s'

/-- The inductive invariant: each running location holds the lock, the two
inference locations are mutually exclusive, the frame slot never outlives the
message slot, the scanner has not crashed, and the last completion time never
lies in the future. -/
def GoodState (s : SchedState) : Prop :=
  (s.timerPc = .running → s.lockHeld = true) ∧
  (s.readerPc = .running → s.lockHeld = true) ∧
  ¬(s.timerPc = .running ∧ s.readerPc = .running) ∧
  (s.latestFrame.isSome → s.latestMsg.isSome) ∧
  s.crashed = false ∧
  s.lastProcessTime ≤ s.now

/-- Boolean form of the mutual-exclusion part of the invariant. -/
def mutexOk (s : SchedState) : Bool :=
  (s.timerPc != .running || s.lockHeld) &&
  (s.readerPc != .running || s.lockHeld) &&
  !(s.timerPc == .running && s.readerPc == .running)

/-- Boolean form of the frame/message pairing part of the invariant. -/
def pairedOk (s : SchedState) : Bool :=
  (!s.latestFrame.isSome || s.latestMsg.isSome) && !s.crashed

/-! ## Concrete instances used by counterexamples and witnesses -/

/-- A bounding box for concrete runs. -/
def loc0 : FaceLoc := { top := 0, right := 10, bottom := 10, left := 0 }

/-- Environment with a one-entry gallery `Alice` whose distance to the single
detected face is 1/2 (a match under the 0.6 tolerance). -/
def envKnown : Env :=
  { galleryNames := ["Alice"], decoded := .ok [(loc0, [(1 : ℚ)/2])],
    vlm := fun _ => "clear" }

/-- Environment whose VLM response mentions the target word `apple` twice. -/
def envDup : Env := { vlm := fun _ => "I see an apple and an apple" }

/-- The face results produced by `envKnown`: one face, matched to Alice at
distance 1/2. -/
def frAlice : FaceResults :=
  { count := 1, faces := [{ name := "Alice", location := loc0, confidence := 1 - (1 : ℚ)/2 }] }

/-- Message with `recognize_faces` set and no prompt. -/
def msgFaceOnly : Msg := { recognize_faces := true }

/-- Message with an explicit non-sentinel prompt and `recognize_faces` set. -/
def msgAsk : Msg := { prompt := some "What is on the table?", recognize_faces := true }

/-- Speech message whose prompt contains the identity-query pattern. -/
def msgWho : Msg := { prompt := some "Hey, who is this?", is_speech := true }

/-- Message with an explicit prompt, as received by the reader loop. -/
def msgHello : Msg := { prompt := some "hello" }

/-- Idle message: no prompt at all. -/
def msgIdle : Msg := {}

/-- State after the reader receives `msgHello` with frame `"f"`. -/
def sRecv : SchedState :=
  { initState with
    latestFrame := some "f", latestMsg := some msgHello,
    readerPc := (if immediateMsg msgHello then ReaderPc.wantLock msgHello "f"
                 else ReaderPc.waiting) }

/-- State after the reader acquires the lock for its immediate inference. -/
def sLocked : SchedState := { sRecv with lockHeld := true, readerPc := ReaderPc.running }

/-- Same state after a zero-length time step. -/
def sLockedAfter : SchedState := { sLocked with now := sLocked.now + 0 }

/-- A state with an idle stored message, a truthy frame and an elapsed
interval, from which the scanner may start an inference. -/
def sIdle : SchedState :=
  { now := 2, lastProcessTime := 0, latestFrame := some "f", latestMsg := some msgIdle,
    lockHeld := false, timerPc := .sleeping, readerPc := .waiting, crashed := false }

/-- The scanner-start successor of `sIdle`. -/
def sIdleStarted : SchedState := { sIdle with lockHeld := true, timerPc := TimerPc.running }

theorem frameTruthy_isSome {o : Option String} (h : frameTruthy o = true) :
    o.isSome = true := by
  cases o with
  | none => simp [frameTruthy] at h
  | some s => rfl

theorem goodState_init : GoodState initState := by
  refine ⟨?_, ?_, ?_, ?_, rfl, le_refl 0⟩ <;> simp [initState]

theorem goodState_step {s s' : SchedState} (hg : GoodState s) (hs : Step s s') :
    GoodState s' := by
  obtain ⟨h1, h2, h3, h4, h5, h6⟩ := hg
  cases hs with
  | timePass d hd =>
    refine ⟨h1, h2, h3, h4, h5, ?_⟩
    show s.lastProcessTime ≤ s.now + d
    linarith
  | recv m f hr hc =>
    refine ⟨h1, ?_, ?_, by intro _; rfl, h5, h6⟩
    · intro h
      by_cases hi : immediateMsg m = true <;> simp [hi] at h
    · rintro ⟨-, h⟩
      by_cases hi : immediateMsg m = true <;> simp [hi] at h
  | readerAcquire m f hr hl hc =>
    refine ⟨fun _ => rfl, fun _ => rfl, ?_, h4, h5, h6⟩
    rintro ⟨ht, -⟩
    exact absurd (h1 ht) (by simp [hl])
  | readerComplete hr hc =>
    refine ⟨?_, ?_, ?_, h4, h5, le_refl _⟩
    · intro ht
      exact absurd ⟨ht, hr⟩ h3
    · intro h
      exact absurd h (by simp)
    · rintro ⟨-, h⟩
      exact absurd h (by simp)
  | timerStart m ht hf he hl hm hi hc =>
    refine ⟨fun _ => rfl, fun _ => rfl, ?_, h4, h5, h6⟩
    rintro ⟨-, hrr⟩
    exact absurd (h2 hrr) (by simp [hl])
  | timerCrash ht hf he hl hm hc =>
    exact absurd (h4 (frameTruthy_isSome hf)) (by simp [hm])
  | timerComplete ht hc =>
    refine ⟨?_, ?_, ?_, h4, h5, le_refl _⟩
    · intro h
      exact absurd h (by simp)
    · intro hrr
      exact absurd ⟨ht, hrr⟩ h3
    · rintro ⟨h, -⟩
      exact absurd h (by simp)

theorem reachable_good {s : SchedState} (h : Reachable s) : GoodState s := by
  induction h with
  | init => exact goodState_init
  | step _ hs ih => exact goodState_step ih hs

theorem mutexOk_of_good {s : SchedState} (hg : GoodState s) : mutexOk s = true := by
  obtain ⟨h1, h2, h3, -, -, -⟩ := hg
  cases ht : s.timerPc <;> cases hl : s.lockHeld <;> cases hr : s.readerPc <;>
    simp_all [mutexOk]

theorem pairedOk_of_good {s : SchedState} (hg : GoodState s) : pairedOk s = true := by
  obtain ⟨-, -, -, h4, h5, -⟩ := hg
  cases hf : s.latestFrame <;> cases hm : s.latestMsg <;> simp_all [pairedOk]

theorem isSubChars_iff (n h : List Char) :
    isSubChars n h = true ↔ ∃ p q, h = p ++ n ++ q := by
  induction h with
  | nil =>
    simp only [isSubChars]
    constructor
    · intro hx
      have hn : n = [] := by simpa using hx
      exact ⟨[], [], by simp [hn]⟩
    · rintro ⟨p, q, hpq⟩
      have h0 : p ++ n ++ q = [] := hpq.symm
      simp only [List.append_eq_nil] at h0
      simp [h0.1.2]
  | cons c t ih =>
    simp only [isSubChars, Bool.or_eq_true, List.isPrefixOf_iff_prefix, ih]
    constructor
    · rintro (hpre | ⟨p, q, hpq⟩)
      · obtain ⟨q, hq⟩ := hpre
        exact ⟨[], q, by simp [← hq]⟩
      · exact ⟨c :: p, q, by simp [hpq]⟩
    · rintro ⟨p, q, hpq⟩
      cases p with
      | nil =>
        exact Or.inl ⟨q, by simpa using hpq.symm⟩
      | cons a p' =>
        have hconj : c = a ∧ t = p' ++ n ++ q := by simpa using hpq
        exact Or.inr ⟨p', q, hconj.2⟩

theorem argminIdx_min : ∀ (l : List ℚ) (j : ℕ), j < l.length →
    l.getD (argminIdx l) 0 ≤ l.getD j 0 := by
  intro l
  induction l with
  | nil => intro j hj; simp at hj
  | cons x xs ih =>
    cases xs with
    | nil =>
      intro j hj
      have hj0 : j = 0 := Nat.lt_one_iff.mp hj
      subst hj0
      exact le_refl _
    | cons y ys =>
      intro j hj
      have heq : argminIdx (x :: y :: ys)
          = (if x ≤ (y :: ys).getD (argminIdx (y :: ys)) 0 then 0
             else argminIdx (y :: ys) + 1) := rfl
      by_cases hcmp : x ≤ (y :: ys).getD (argminIdx (y :: ys)) 0
      · rw [heq, if_pos hcmp]
        cases j with
        | zero => exact le_refl _
        | succ k =>
          have hk : k < (y :: ys).length := Nat.lt_of_succ_lt_succ hj
          exact le_trans hcmp (ih k hk)
      · rw [heq, if_neg hcmp]
        cases j with
        | zero => exact le_of_lt (lt_of_not_le hcmp)
        | succ k =>
          have hk : k < (y :: ys).length := Nat.lt_of_succ_lt_succ hj
          exact ih k hk

theorem argminIdx_lt_length : ∀ l : List ℚ, l ≠ [] → argminIdx l < l.length := by
  intro l
  induction l with
  | nil => intro h; exact absurd rfl h
  | cons x xs ih =>
    intro h2
    cases xs with
    | nil => exact Nat.one_pos
    | cons y ys =>
      have hlt := ih (by simp)
      have heq : argminIdx (x :: y :: ys)
          = (if x ≤ (y :: ys).getD (argminIdx (y :: ys)) 0 then 0
             else argminIdx (y :: ys) + 1) := rfl
      by_cases hcmp : x ≤ (y :: ys).getD (argminIdx (y :: ys)) 0
      · rw [heq, if_pos hcmp]
        exact Nat.succ_pos _
      · rw [heq, if_neg hcmp]
        exact Nat.succ_lt_succ hlt

/-! ## Claim theorems -/

/-- C3 (code bug): a payload that is not valid JSON makes the src/main.py
websocket loop raise `json.JSONDecodeError` out of the loop — only
`WebSocketDisconnect` is caught — so the connection closes with no error
reply, while the src/vlm-websocket/server.py variant answers with the
structured object `\x7b"error": "Invalid JSON format"\x7d` and keeps the
connection open, which is what the specification requires of both. -/
theorem c3_malformed_json_behavior :
    main_receive_step (Inbound.malformed "not json")
      = LoopOutcome.raisedClosed "json.JSONDecodeError"
    ∧ server_receive_step "clear" (Inbound.malformed "not json")
      = LoopOutcome.continueOpen (some (Reply.errorReply "Invalid JSON format")) :=
  ⟨rfl, rfl⟩

/-- C7 counterexample: at distance exactly 0.6 — which is not *below* the
0.6 tolerance — the code still assigns the gallery name, because the
library's `compare_faces` tests `distance <= tolerance`; the claim's strict
reading would demand `name = "Unknown"` here. -/
theorem c7_counterexample :
    (recognizeOneFace ["Alice"] [(0.6 : ℚ)] loc0).name = "Alice"
    ∧ (recognizeOneFace ["Alice"] [(0.6 : ℚ)] loc0).confidence = 1 - (0.6 : ℚ)
    ∧ ¬((0.6 : ℚ) < 0.6) := by
  have heq : recognizeOneFace ["Alice"] [(0.6 : ℚ)] loc0
      = { name := "Alice", location := loc0, confidence := 1 - (0.6 : ℚ) } := by
    unfold recognizeOneFace
    rw [if_neg (by simp),
      if_pos (show [(0.6 : ℚ)].getD (argminIdx [(0.6 : ℚ)]) 0 ≤ 0.6 from le_refl _)]
    rfl
  rw [heq]
  exact ⟨rfl, rfl, lt_irrefl _⟩

/-- C7 (amended): for each detected face the distance to every gallery entry
is consulted and the first minimizing index selected; a name is assigned
exactly when that minimum distance is at most (not strictly below) the 0.6
tolerance, with confidence `1 - distance`; with an empty gallery every
detected face comes back `"Unknown"` with confidence 0. -/
theorem c7_matching_policy :
    (∀ (dists : List ℚ) (j : ℕ), j < dists.length →
        dists.getD (argminIdx dists) 0 ≤ dists.getD j 0)
    ∧ (∀ dists : List ℚ, dists ≠ [] → argminIdx dists < dists.length)
    ∧ (∀ (names : List String) (dists : List ℚ) (loc : FaceLoc), names ≠ [] →
        (dists.getD (argminIdx dists) 0 ≤ 0.6 →
          recognizeOneFace names dists loc =
            { name := names.getD (argminIdx dists) "Unknown", location := loc,
              confidence := 1 - dists.getD (argminIdx dists) 0 })
        ∧ (¬ dists.getD (argminIdx dists) 0 ≤ 0.6 →
          recognizeOneFace names dists loc =
            { name := "Unknown", location := loc, confidence := 0 }))
    ∧ (∀ (df : DecodedFrame) (f : Face), f ∈ (recognize_faces_in_frame [] df).faces →
        f.name = "Unknown" ∧ f.confidence = 0) := by
  refine ⟨argminIdx_min, argminIdx_lt_length, ?_, ?_⟩
  · intro names dists loc hne
    have h0 : names.isEmpty = false := by
      cases names with
      | nil => exact absurd rfl hne
      | cons a l => rfl
    have heq : recognizeOneFace names dists loc
        = (if dists.getD (argminIdx dists) 0 ≤ 0.6 then
            { name := names.getD (argminIdx dists) "Unknown", location := loc,
              confidence := 1 - dists.getD (argminIdx dists) 0 }
          else ({ name := "Unknown", location := loc, confidence := 0 } : Face)) := by
      unfold recognizeOneFace
      rw [if_neg (by simp [h0])]
    exact ⟨fun hle => by rw [heq, if_pos hle], fun hgt => by rw [heq, if_neg hgt]⟩
  · intro df f hf
    cases df with
    | ok dets =>
      simp only [recognize_faces_in_frame, List.mem_map] at hf
      obtain ⟨d, -, hdf⟩ := hf
      subst hdf
      exact ⟨rfl, rfl⟩
    | failure e => simp [recognize_faces_in_frame] at hf

/-- C7 witness: a one-entry gallery at distance 1/2 yields the named match
with confidence `1 - 1/2`, and the argmin index is in bounds. -/
theorem c7_witness :
    recognizeOneFace ["Alice"] [(1 : ℚ)/2] loc0
      = { name := ["Alice"].getD (argminIdx [(1 : ℚ)/2]) "Unknown", location := loc0,
          confidence := 1 - [(1 : ℚ)/2].getD (argminIdx [(1 : ℚ)/2]) 0 }
    ∧ argminIdx [(1 : ℚ)/2] < ([(1 : ℚ)/2] : List ℚ).length :=
  ⟨(c7_matching_policy.2.2.1 ["Alice"] [(1 : ℚ)/2] loc0 (List.cons_ne_nil _ _)).1
      (by norm_num [argminIdx]),
   c7_matching_policy.2.1 [(1 : ℚ)/2] (List.cons_ne_nil _ _)⟩

/-- C8 counterexample: the fallback text of the vlm-websocket variant's
`query_ollama` embeds the error message, so it is not a fixed string — two
different connection errors yield two different fallback texts. -/
theorem c8_counterexample :
    query_ollama_server (OllamaOutcome.requestErr "connection refused")
      ≠ query_ollama_server (OllamaOutcome.requestErr "connection reset")
    ∧ query_ollama_server (OllamaOutcome.requestErr "connection refused")
      = "Error communicating with Ollama: connection refused" := by
  refine ⟨?_, rfl⟩
  decide

/-- C8 (amended): neither `query_ollama` variant lets a failure propagate.
The src/main.py variant maps every failure — timeout, connection error, or
any other exception including the non-2xx `HTTPStatusError` — to one of
three fixed fallback strings; the src/vlm-websocket/server.py variant also
always returns a string, but its fallbacks embed the error text rather than
being fixed. -/
theorem c8_describe_fallbacks :
    (∀ o : OllamaOutcome, isFailureOutcome o = true →
      query_ollama_main o = "I\x27m having trouble processing the image right now (timeout)."
      ∨ query_ollama_main o = "I\x27m having trouble connecting to the vision model."
      ∨ query_ollama_main o = "An unexpected error occurred while analyzing the image.")
    ∧ (∀ e : String, query_ollama_server (OllamaOutcome.requestErr e)
        = "Error communicating with Ollama: " ++ e)
    ∧ (∀ e : String, query_ollama_server (OllamaOutcome.otherErr e) = "Error: " ++ e) := by
  refine ⟨?_, fun e => rfl, fun e => rfl⟩
  intro o ho
  cases o with
  | ok r => simp [isFailureOutcome] at ho
  | timeout e => exact Or.inl rfl
  | requestErr e => exact Or.inr (Or.inl rfl)
  | otherErr e => exact Or.inr (Or.inr rfl)

/-- C8 witness: the timeout outcome maps to the first fixed fallback. -/
theorem c8_witness :
    query_ollama_main (OllamaOutcome.timeout "ReadTimeout")
      = "I\x27m having trouble processing the image right now (timeout)."
    ∨ query_ollama_main (OllamaOutcome.timeout "ReadTimeout")
      = "I\x27m having trouble connecting to the vision model."
    ∨ query_ollama_main (OllamaOutcome.timeout "ReadTimeout")
      = "An unexpected error occurred while analyzing the image." :=
  c8_describe_fallbacks.1 (OllamaOutcome.timeout "ReadTimeout") rfl

/-- C4 counterexample: a response containing the target word `apple` twice
produces the trigger list `["apple"]` and hence a single forward dispatch,
not two — the scan iterates over the target list, not over occurrences. -/
theorem c4_counterexample :
    triggersOf "I see an apple and an apple" = ["apple"]
    ∧ (processSingleFrame envDup {}).forwards = ["apple"]
    ∧ (processSingleFrame envDup {}).forwards.length = 1 := by
  refine ⟨by decide, ?_, ?_⟩ <;> decide

/-- C4 (amended): the trigger list holds exactly the target-list entries
whose lowering occurs as a substring of the lowered response, in target-list
order and without duplicates (so duplicate occurrences of a word in the
response yield a single forward); for the apple-and-bottle example the list
is exactly `["apple", "bottle"]`; and on the non-speech path the dispatched
forwards coincide with the trigger list computed from the sent response. -/
theorem c4_trigger_scanning :
    (∀ a w : String, w ∈ triggersOf a ↔
        w ∈ TARGET_OBJECTS ∧ ∃ p q, (lowerStr a).data = p ++ (lowerStr w).data ++ q)
    ∧ (∀ a : String, (triggersOf a).Nodup)
    ∧ triggersOf "I see an apple and a bottle" = ["apple", "bottle"]
    ∧ (∀ (env : Env) (m : Msg), (m.is_speech && promptTruthy m.prompt) = false →
        (processSingleFrame env m).forwards = (processSingleFrame env m).sent.triggers
        ∧ (processSingleFrame env m).forwards
            = triggersOf ((processSingleFrame env m).sent.response)) := by
  refine ⟨?_, ?_, by decide, ?_⟩
  · intro a w
    simp only [triggersOf, List.mem_filter, occursIn, isSubChars_iff]
  · intro a
    exact List.Nodup.filter _ (by decide)
  · intro env m hg
    simp [processSingleFrame, hg]

/-- C4 witness: on a concrete non-speech run the forwards equal the sent
trigger list and the scan of the sent response. -/
theorem c4_witness :
    (processSingleFrame envKnown msgFaceOnly).forwards
      = (processSingleFrame envKnown msgFaceOnly).sent.triggers
    ∧ (processSingleFrame envKnown msgFaceOnly).forwards
      = triggersOf ((processSingleFrame envKnown msgFaceOnly).sent.response) :=
  c4_trigger_scanning.2.2.2 envKnown msgFaceOnly rfl

theorem recognizeOneFace_alice :
    recognizeOneFace ["Alice"] [(1 : ℚ)/2] loc0
      = { name := "Alice", location := loc0, confidence := 1 - (1 : ℚ)/2 } := by
  unfold recognizeOneFace
  rw [if_neg (by simp),
    if_pos (show [(1 : ℚ)/2].getD (argminIdx [(1 : ℚ)/2]) 0 ≤ 0.6 from by
      norm_num [argminIdx])]
  rfl

theorem envKnown_faces :
    recognize_faces_in_frame envKnown.galleryNames envKnown.decoded = frAlice := by
  show recognize_faces_in_frame ["Alice"] (DecodedFrame.ok [(loc0, [(1 : ℚ)/2])]) = frAlice
  simp only [recognize_faces_in_frame, List.map_cons, List.map_nil,
    recognizeOneFace_alice, frAlice, List.length_cons, List.length_nil]

/-- C1 counterexample: a message with `recognize_faces` set and no prompt at
all still produces a VLM call — the prompt sent is the ambient prompt with
the detected-names note — so no VLM-skipping face-only path exists in
src/main.py. -/
theorem c1_counterexample :
    (processSingleFrame envKnown msgFaceOnly).vlmPrompt ≠ none
    ∧ (processSingleFrame envKnown msgFaceOnly).vlmPrompt
      = some (AMBIENT_PROMPT ++ "\n\nNote: I\x27ve detected: Alice.") := by
  have hvlm : (processSingleFrame envKnown msgFaceOnly).vlmPrompt
      = some (finalPromptOf envKnown msgFaceOnly) := rfl
  have hfin : finalPromptOf envKnown msgFaceOnly
      = AMBIENT_PROMPT ++ "\n\nNote: I\x27ve detected: Alice." := by
    unfold finalPromptOf
    rw [show basePromptOf msgFaceOnly = AMBIENT_PROMPT from rfl,
      show faceResultsOf envKnown msgFaceOnly
        = some (recognize_faces_in_frame envKnown.galleryNames envKnown.decoded) from rfl,
      envKnown_faces]
    rfl
  constructor
  · rw [hvlm]
    exact Option.some_ne_none _
  · rw [hvlm, hfin]

/-- C1 (amended): on a non-speech message with `recognize_faces` set and an
absent or sentinel prompt, face matching runs and one VLM call is still made,
with the ambient description prompt plus the detected-names note — the VLM
call is not skipped. -/
theorem c1_face_mode_runs_vlm : ∀ (env : Env) (m : Msg),
    (m.is_speech && promptTruthy m.prompt) = false →
    m.recognize_faces = true →
    (m.prompt = none ∨ m.prompt = some SENTINEL) →
    (processSingleFrame env m).faceIdRan = true
    ∧ (processSingleFrame env m).vlmPrompt
      = some (withFaceNote AMBIENT_PROMPT
          (some (recognize_faces_in_frame env.galleryNames env.decoded))) := by
  intro env m hg hrf hp
  have hbase : basePromptOf m = AMBIENT_PROMPT := by
    rcases hp with h | h <;> simp [basePromptOf, h, promptTruthy]
  have hfr : faceResultsOf env m
      = some (recognize_faces_in_frame env.galleryNames env.decoded) := by
    simp [faceResultsOf, hrf]
  constructor
  · simp [processSingleFrame, hg, hrf]
  · simp [processSingleFrame, hg, finalPromptOf, hbase, hfr]

/-- C1 witness: the amended behavior on the concrete gallery and face-only
message. -/
theorem c1_witness :
    (processSingleFrame envKnown msgFaceOnly).faceIdRan = true
    ∧ (processSingleFrame envKnown msgFaceOnly).vlmPrompt
      = some (withFaceNote AMBIENT_PROMPT
          (some (recognize_faces_in_frame envKnown.galleryNames envKnown.decoded))) :=
  c1_face_mode_runs_vlm envKnown msgFaceOnly rfl rfl (Or.inl rfl)

/-- C5 counterexample: with `recognize_faces` also set and a known face in
frame, the explicit user prompt is not passed verbatim — the detected-names
note is appended to it before the VLM call. -/
theorem c5_counterexample :
    (processSingleFrame envKnown msgAsk).vlmPrompt
      = some ("What is on the table?" ++ "\n\nNote: I\x27ve detected: Alice.")
    ∧ (processSingleFrame envKnown msgAsk).vlmPrompt ≠ some "What is on the table?" := by
  have hvlm : (processSingleFrame envKnown msgAsk).vlmPrompt
      = some (finalPromptOf envKnown msgAsk) := rfl
  have hfin : finalPromptOf envKnown msgAsk
      = "What is on the table?" ++ "\n\nNote: I\x27ve detected: Alice." := by
    unfold finalPromptOf
    rw [show basePromptOf msgAsk = "What is on the table?" from rfl,
      show faceResultsOf envKnown msgAsk
        = some (recognize_faces_in_frame envKnown.galleryNames envKnown.decoded) from rfl,
      envKnown_faces]
    rfl
  constructor
  · rw [hvlm, hfin]
  · rw [hvlm, hfin]
    decide

/-- C5 (amended): on a non-speech message with a present, non-empty,
non-sentinel prompt, the VLM is always called with the user's prompt as the
base — never the ambient prompt — and the detected-names note is the only
possible addition (absent whenever no face results carry recognized names,
in particular whenever `recognize_faces` is off). -/
theorem c5_explicit_prompt_base : ∀ (env : Env) (m : Msg) (p : String),
    m.is_speech = false → m.prompt = some p → p ≠ "" → p ≠ SENTINEL →
    (processSingleFrame env m).vlmPrompt = some (withFaceNote p (faceResultsOf env m))
    ∧ withFaceNote p none = p := by
  intro env m p hs hp hne hnsent
  have hg : (m.is_speech && promptTruthy m.prompt) = false := by simp [hs]
  have hbase : basePromptOf m = p := by
    simp [basePromptOf, hp, promptTruthy, hne, hnsent]
  exact ⟨by simp [processSingleFrame, hg, finalPromptOf, hbase], rfl⟩

/-- C5 witness: the amended behavior on the concrete explicit-prompt
message. -/
theorem c5_witness :
    (processSingleFrame envKnown msgAsk).vlmPrompt
      = some (withFaceNote "What is on the table?" (faceResultsOf envKnown msgAsk))
    ∧ withFaceNote "What is on the table?" none = "What is on the table?" :=
  c5_explicit_prompt_base envKnown msgAsk "What is on the table?" rfl rfl
    (by decide) (by decide)

/-- C9 (confirmed): on a message with `is_speech` and a non-empty prompt the
speech path is taken: no VLM call, no trigger scan, no forwards, and the
reply is marked speech-handled.  If the lowered, stripped prompt contains the
identity pattern `"who is this"` (and an image is present), face matching
runs and the response is synthesized from the detections — no-faces
sentence when count is 0, count-only sentence when nothing is recognized,
name list otherwise; on any other prompt the speech service's trimmed text
is relayed, degrading to the fixed unavailable-service sentence on a request
error and to a second fixed sentence on any other exception. -/
theorem c9_speech_path : ∀ (env : Env) (m : Msg) (p : String),
    m.is_speech = true → m.prompt = some p → p ≠ "" →
    (processSingleFrame env m).vlmPrompt = none
    ∧ (processSingleFrame env m).forwards = []
    ∧ (processSingleFrame env m).sent.triggers = []
    ∧ (processSingleFrame env m).sent.speech_handled = true
    ∧ (occursIn "who is this" (trimStr (lowerStr p)) = true → env.framePresent = true →
        (processSingleFrame env m).faceIdRan = true
        ∧ (processSingleFrame env m).sent.faces
            = some (recognize_faces_in_frame env.galleryNames env.decoded)
        ∧ (processSingleFrame env m).sent.response
            = speechFaceText (recognize_faces_in_frame env.galleryNames env.decoded))
    ∧ (occursIn "who is this" (trimStr (lowerStr p)) = false →
        (processSingleFrame env m).sent.response
          = (match env.speech with
             | SpeechOutcome.ok t => trimStr t
             | SpeechOutcome.requestError _ => "Speech API is currently unavailable."
             | SpeechOutcome.otherError _ => "Unable to process speech request."))
    ∧ (∀ fr : FaceResults,
        (fr.count = 0 →
          speechFaceText fr = "I don\x27t see any faces in the current frame.")
        ∧ (0 < fr.count → recognizedNames fr = [] →
          speechFaceText fr
            = "I can see " ++ toString fr.count ++ " person(s), but I don\x27t recognize them.")
        ∧ (0 < fr.count → recognizedNames fr ≠ [] →
          speechFaceText fr
            = "I can see " ++ String.intercalate ", " (recognizedNames fr) ++ ".")) := by
  intro env m p hs hp hne
  have hg : (m.is_speech && promptTruthy m.prompt) = true := by
    simp [hs, hp, promptTruthy, hne]
  have hup : m.prompt.getD "" = p := by rw [hp]; rfl
  refine ⟨?_, ?_, ?_, ?_, ?_, ?_, ?_⟩
  · by_cases hr : (handle_speech_prompt env (m.prompt.getD "")).rtype = "facial_recognition" <;>
      simp [processSingleFrame, hg, hr]
  · by_cases hr : (handle_speech_prompt env (m.prompt.getD "")).rtype = "facial_recognition" <;>
      simp [processSingleFrame, hg, hr]
  · by_cases hr : (handle_speech_prompt env (m.prompt.getD "")).rtype = "facial_recognition" <;>
      simp [processSingleFrame, hg, hr]
  · by_cases hr : (handle_speech_prompt env (m.prompt.getD "")).rtype = "facial_recognition" <;>
      simp [processSingleFrame, hg, hr]
  · intro hq hfp
    have hhs : handle_speech_prompt env p
        = { rtype := "facial_recognition",
            face_results := some (recognize_faces_in_frame env.galleryNames env.decoded),
            response_text :=
              some (speechFaceText (recognize_faces_in_frame env.galleryNames env.decoded)) } := by
      simp [handle_speech_prompt, hq, hfp]
    refine ⟨?_, ?_, ?_⟩ <;> simp [processSingleFrame, hg, hup, hhs]
  · intro hq
    cases hsp : env.speech with
    | ok t =>
      have hhs : handle_speech_prompt env p
          = { rtype := "speech_api", api_response := some (trimStr t) } := by
        simp [handle_speech_prompt, hq, hsp]
      simp [processSingleFrame, hg, hup, hhs]
    | requestError e =>
      have hhs : handle_speech_prompt env p
          = { rtype := "speech_api",
              api_response := some "Speech API is currently unavailable.",
              error := some e } := by
        simp [handle_speech_prompt, hq, hsp]
      simp [processSingleFrame, hg, hup, hhs]
    | otherError e =>
      have hhs : handle_speech_prompt env p
          = { rtype := "speech_api",
              api_response := some "Unable to process speech request.",
              error := some e } := by
        simp [handle_speech_prompt, hq, hsp]
      simp [processSingleFrame, hg, hup, hhs]
  · intro fr
    refine ⟨?_, ?_, ?_⟩
    · intro h0
      simp [speechFaceText, h0]
    · intro hpos hrec
      simp [speechFaceText, hpos, hrec]
    · intro hpos hrec
      cases hrn : recognizedNames fr with
      | nil => exact absurd hrn hrec
      | cons a l => simp [speechFaceText, hpos, hrn]

/-- C9 witness: a concrete identity-query speech message over the Alice
gallery takes the facial-recognition speech branch with no VLM call. -/
theorem c9_witness :
    (processSingleFrame envKnown msgWho).vlmPrompt = none
    ∧ (processSingleFrame envKnown msgWho).sent.response
      = speechFaceText (recognize_faces_in_frame envKnown.galleryNames envKnown.decoded) := by
  have h := c9_speech_path envKnown msgWho "Hey, who is this?" rfl rfl (by decide)
  exact ⟨h.1, (h.2.2.2.2.1 (by decide) rfl).2.2⟩

/-- C2 (confirmed): in every reachable scheduler state the two inference
locations hold the processing lock and are mutually exclusive — at most one
inference is in flight per connection — and from any state where the lock is
held a sleeping scanner stays sleeping across any step: the timer skips its
turn rather than queueing, while the message-triggered path always acquires
the same lock before running (its `running` location is only entered by
`readerAcquire`, which requires the free lock). -/
theorem c2_mutual_exclusion : ∀ s s' : SchedState, Reachable s → Step s s' →
    mutexOk s = true
    ∧ (s.lockHeld = true → s.timerPc = TimerPc.sleeping →
        s'.timerPc = TimerPc.sleeping) := by
  intro s s' hr hs
  refine ⟨mutexOk_of_good (reachable_good hr), ?_⟩
  intro hl ht
  cases hs with
  | timePass d hd => exact ht
  | recv m f hrr hc => exact ht
  | readerAcquire m f hrr hll hc => exact ht
  | readerComplete hrr hc => exact ht
  | timerStart m ht2 hf he hl2 hm hi hc =>
    rw [hl] at hl2
    cases hl2
  | timerCrash ht2 hf he hl2 hm hc => exact ht
  | timerComplete ht2 hc => exact rfl

theorem reachable_sRecv : Reachable sRecv :=
  Reachable.step Reachable.init (Step.recv initState msgHello "f" rfl rfl)

theorem reachable_sLocked : Reachable sLocked :=
  Reachable.step reachable_sRecv
    (Step.readerAcquire sRecv msgHello "f" (by decide) rfl rfl)

/-- C2 witness: a concrete reachable state with the lock held by the reader
satisfies the mutual-exclusion predicate, and a step from it leaves the
sleeping scanner sleeping. -/
theorem c2_witness :
    mutexOk sLocked = true ∧ sLockedAfter.timerPc = TimerPc.sleeping := by
  have h := c2_mutual_exclusion sLocked sLockedAfter reachable_sLocked
    (Step.timePass sLocked 0 (le_refl 0))
  exact ⟨h.1, h.2 rfl rfl⟩

/-- C6 (confirmed): the scanner moves from sleeping to running only when all
three gates of src/main.py lines 345-350 hold in the pre-state — the frame
slot is truthy, at least `FRAME_PROCESS_INTERVAL` seconds have passed since
`last_process_time` (which both completion transitions set to the completion
instant, so the timer never fires within the interval of the previous
completed inference), and the stored message exists and is idle (so a
pending explicit prompt is never consumed by the timer); moreover in every
reachable state `last_process_time` never exceeds the current time. -/
theorem c6_timer_gates :
    (∀ s s' : SchedState, Step s s' → s.timerPc = TimerPc.sleeping →
        s'.timerPc = TimerPc.running →
        frameTruthy s.latestFrame = true
        ∧ FRAME_PROCESS_INTERVAL ≤ s.now - s.lastProcessTime
        ∧ ∃ m, s.latestMsg = some m ∧ isIdleMsg m = true)
    ∧ (∀ s : SchedState, Reachable s → s.lastProcessTime ≤ s.now) := by
  constructor
  · intro s s' hs h1 h2
    cases hs with
    | timePass d hd =>
      exact absurd (h1.symm.trans (show s.timerPc = TimerPc.running from h2)) (by simp)
    | recv m f hrr hc =>
      exact absurd (h1.symm.trans (show s.timerPc = TimerPc.running from h2)) (by simp)
    | readerAcquire m f hrr hll hc =>
      exact absurd (h1.symm.trans (show s.timerPc = TimerPc.running from h2)) (by simp)
    | readerComplete hrr hc =>
      exact absurd (h1.symm.trans (show s.timerPc = TimerPc.running from h2)) (by simp)
    | timerStart m ht hf he hl hm hi hc => exact ⟨hf, he, m, hm, hi⟩
    | timerCrash ht hf he hl hm hc =>
      exact absurd (h1.symm.trans (show s.timerPc = TimerPc.running from h2)) (by simp)
    | timerComplete ht hc => exact absurd (h1.symm.trans ht) (by simp)
  · intro s hr
    exact (reachable_good hr).2.2.2.2.2

/-- C6 witness: a concrete scanner-start step from a state with a truthy
frame, an elapsed interval and an idle stored message. -/
theorem c6_witness :
    frameTruthy sIdle.latestFrame = true
    ∧ FRAME_PROCESS_INTERVAL ≤ sIdle.now - sIdle.lastProcessTime
    ∧ initState.lastProcessTime ≤ initState.now := by
  have h := c6_timer_gates.1 sIdle sIdleStarted
    (Step.timerStart sIdle msgIdle rfl (by decide) (by norm_num [sIdle, FRAME_PROCESS_INTERVAL])
      rfl rfl (by decide) rfl) rfl rfl
  exact ⟨h.1, h.2.1, c6_timer_gates.2 initState Reachable.init⟩

/-- C10 (confirmed): in every reachable scheduler state a non-null
`latest_frame` implies a non-null `latest_message` — the reader writes both
slots together with no suspension point between the writes — and the scanner
can never reach the crashing null dereference of `latest_message.get` at
src/main.py line 348 (the `crashed` flag stays false). -/
theorem c10_frame_message_invariant : ∀ s : SchedState, Reachable s →
    pairedOk s = true := by
  intro s hr
  exact pairedOk_of_good (reachable_good hr)

/-- C10 witness: the invariant holds at a concrete reachable state whose
frame slot has just been overwritten. -/
theorem c10_witness : pairedOk sRecv = true :=
  c10_frame_message_invariant sRecv reachable_sRecv

end HawkEye
